import Mathlib

/-!
# Verification of the mc-mcp bridge-server relay core

Shallow embedding of the bridge-server subsystem of the `mc-mcp` repository:
message validation (`validation.ts`), the auth gate (`auth.ts`), the message
router with its bounded queue, serialization cache and latency accounting
(`message-router.ts`, `latency-monitor.ts`), the heartbeat supervisor and the
first-message/post-auth connection handling (`index.ts`), and the client-side
reconnection manager (`reconnection.ts`).

JavaScript runtime values that flow through these functions are modelled by
`JsonVal`; effects (clock reads, socket sends, log calls, thrown exceptions)
are made explicit as parameters and result fields.
-/

namespace Bridge

/-- A JavaScript runtime value as seen by the bridge code. `bigintVal` models
a JS `BigInt`, which `JSON.stringify` refuses to serialize (it throws a
`TypeError`); property lookup on non-objects yields `undefined`, modelled as
`Option.none` by `jsGet`. -/
inductive JsonVal where
  | null
  | bool (b : Bool)
  | num (n : Int)
  | str (s : String)
  | arr (elems : List JsonVal)
  | obj (fields : List (String × JsonVal))
  | bigintVal (n : Int)
deriving Repr

namespace JsonVal

/-- Strict equality `v === "lit"` of a possibly-`undefined` value against a
string literal: only an equal string compares equal. -/
def isStrLit (t : String) : Option JsonVal → Bool
  | some (.str s) => s == t
  | _ => false

/-- Property access `v[k]` on a JS value: looks a key up in an object's
fields (first binding wins, as in a JS object); every other shape yields
`undefined` (`none`). -/
def jsGet : JsonVal → String → Option JsonVal
  | .obj fields, k => fields.lookup k
  | _, _ => none

/-- Property access through an optional chain (`v?.k`): `undefined` input
stays `undefined`. -/
def jsGetOpt : Option JsonVal → String → Option JsonVal
  | some v, k => v.jsGet k
  | none, _ => none

/-- JS truthiness of a possibly-`undefined` value: `undefined`, `null`,
`false`, `0`, `0n` and the empty string are falsy, everything else truthy. -/
def truthy : Option JsonVal → Bool
  | none => false
  | some .null => false
  | some (.bool b) => b
  | some (.num n) => n != 0
  | some (.str s) => s != ""
  | some (.arr _) => true
  | some (.obj _) => true
  | some (.bigintVal n) => n != 0

/-- `typeof v === 'string'` together with truthiness: the checks of the form
`!x || typeof x !== 'string'` in the source fail exactly unless `x` is a
non-empty string. -/
def isTruthyString : Option JsonVal → Bool
  | some (.str s) => s != ""
  | _ => false

/-- `!x || typeof x !== 'number'`: satisfied (no error) exactly when `x` is a
number other than `0` (`0` is falsy, which is the behaviour claim C10 is
about; `NaN`, also falsy, has no counterpart in the integer model). -/
def isTruthyNumber : Option JsonVal → Bool
  | some (.num n) => n != 0
  | _ => false

/-- `typeof v === 'object'`: true for objects, arrays and `null`. -/
def isObjectType : Option JsonVal → Bool
  | some (.obj _) => true
  | some (.arr _) => true
  | some .null => true
  | _ => false

/-- `!x || typeof x !== 'object'` fails (no error) exactly when `x` is truthy
and of object type, i.e. an object or an array (`null` is falsy). -/
def isTruthyObject (v : Option JsonVal) : Bool :=
  truthy v && isObjectType v

/-- String conversion used by template-literal interpolation in the error
messages (JS `String(v)`). -/
def jsToDisplay : Option JsonVal → String
  | none => "undefined"
  | some .null => "null"
  | some (.bool true) => "true"
  | some (.bool false) => "false"
  | some (.num n) => toString n
  | some (.str s) => s
  | some (.arr _) => ""
  | some (.obj _) => "[object Object]"
  | some (.bigintVal n) => toString n

end JsonVal

open JsonVal

/-! ## `validation.ts` -/

/-- `ValidationResult` from `validation.ts`; the source leaves `errors`
undefined when empty, modelled by an always-present list. -/
structure ValidationResult where
  valid : Bool
  errors : List String
deriving DecidableEq, Repr

/-- `VALID_MESSAGE_TYPES` from `validation.ts`. -/
def VALID_MESSAGE_TYPES : List String := ["event", "command", "query", "response", "error"]

/-- `VALID_MESSAGE_SOURCES` from `validation.ts`. -/
def VALID_MESSAGE_SOURCES : List String := ["mcp", "minecraft"]

/-- Membership test matching `Array.prototype.includes` against a list of
string constants: only an equal string matches. -/
def includesStr (l : List String) : Option JsonVal → Bool
  | some (.str s) => l.contains s
  | _ => false

/-- `validateMessage` from `validation.ts` lines 11-82: envelope checks for
the five required fields plus `payload`, then type-specific payload checks;
all violations are collected in order. -/
def validateMessage (message : JsonVal) : ValidationResult :=
  let version := message.jsGet "version"
  let type := message.jsGet "type"
  let id := message.jsGet "id"
  let timestamp := message.jsGet "timestamp"
  let source := message.jsGet "source"
  let payload := message.jsGet "payload"
  let versionErrs := if !isTruthyString version then ["Missing or invalid version field"] else []
  let typeErrs := if !includesStr VALID_MESSAGE_TYPES type then
      ["Invalid message type: " ++ jsToDisplay type] else []
  let idErrs := if !isTruthyString id then ["Missing or invalid id field"] else []
  let tsErrs := if !isTruthyNumber timestamp then ["Missing or invalid timestamp field"] else []
  let sourceErrs := if !includesStr VALID_MESSAGE_SOURCES source then
      ["Invalid message source: " ++ jsToDisplay source] else []
  let payloadErrs := if payload.isNone then ["Missing payload field"] else []
  let commandErrs :=
    if isStrLit "command" type then
      if !isTruthyObject payload then ["Command message must have object payload"]
      else
        (if !isTruthyString (jsGetOpt payload "command") then
          ["Command payload must have command field"] else []) ++
        (if !isTruthyObject (jsGetOpt payload "args") then
          ["Command payload must have args field"] else [])
    else []
  let responseErrs :=
    if isStrLit "response" type then
      if !isTruthyObject payload then ["Response message must have object payload"]
      else
        match jsGetOpt payload "success" with
        | some (.bool _) => []
        | _ => ["Response payload must have boolean success field"]
    else []
  let eventErrs :=
    if isStrLit "event" type then
      if !isTruthyObject payload then ["Event message must have object payload"]
      else
        (if !isTruthyString (jsGetOpt payload "eventType") then
          ["Event payload must have eventType field"] else []) ++
        (if !isTruthyNumber (jsGetOpt payload "timestamp") then
          ["Event payload must have timestamp field"] else []) ++
        (if !truthy (jsGetOpt payload "data") then
          ["Event payload must have data field"] else [])
    else []
  let errors := versionErrs ++ typeErrs ++ idErrs ++ tsErrs ++ sourceErrs ++ payloadErrs ++
    commandErrs ++ responseErrs ++ eventErrs
  ⟨errors.isEmpty, errors⟩

/-! ## `auth.ts` -/

/-- `MessageSource` from `shared/src/types.ts`: the two client roles. -/
inductive MessageSource where
  | mcp
  | minecraft
deriving DecidableEq, Repr

/-- The fields of `BridgeConfig` (`config.ts`) that the auth gate reads. -/
structure AuthConfig where
  mcpAuthTokens : List String
  minecraftAuthToken : String
deriving Repr

/-- `AuthResult` from `auth.ts`. -/
structure AuthResult where
  success : Bool
  clientType : Option MessageSource := none
  error : Option String := none
deriving DecidableEq, Repr

/-- `AuthzResult` from `auth.ts`. -/
structure AuthzResult where
  authorized : Bool
  reason : Option String := none
deriving DecidableEq, Repr

/-- `AuthManager.authenticate` from `auth.ts` lines 27-62: reads
`message.payload?.authToken`; fails unless it is a truthy string
(`!authToken || typeof authToken !== 'string'`), then tries the MCP token
set, then the single Minecraft token, and fails if neither matches. The
side effect of remembering the socket's role is carried by the caller model
(`handleFirstMessage`). -/
def authenticate (config : AuthConfig) (message : JsonVal) : AuthResult :=
  let authToken := jsGetOpt (message.jsGet "payload") "authToken"
  match authToken with
  | some (.str s) =>
    if s == "" then
      { success := false, error := some "Missing authentication token" }
    else if config.mcpAuthTokens.contains s then
      { success := true, clientType := some .mcp }
    else if s == config.minecraftAuthToken then
      { success := true, clientType := some .minecraft }
    else
      { success := false, error := some "Invalid authentication token" }
  | _ => { success := false, error := some "Missing authentication token" }

/-- `dangerousCommands` from `auth.ts` line 92. -/
def dangerousCommands : List String := ["stop", "restart", "op", "deop"]

/-- `AuthManager.authorize` from `auth.ts` lines 64-103: only MCP clients may
send `command`/`query`, only Minecraft clients may send `event`; `command`
payloads are additionally checked against the dangerous-command prefix
denylist (`command?.startsWith(cmd)`; a missing command is not dangerous —
after schema validation, which every call site performs first, the command
field of a `command` message is always a string). -/
def authorize (clientType : MessageSource) (message : JsonVal) : AuthzResult :=
  let type := message.jsGet "type"
  if (isStrLit "command" type || isStrLit "query" type) && clientType != .mcp then
    { authorized := false, reason := some "Only MCP clients can send commands and queries" }
  else if isStrLit "event" type && clientType != .minecraft then
    { authorized := false, reason := some "Only Minecraft clients can send events" }
  else
    let command := jsGetOpt (message.jsGet "payload") "command"
    if isStrLit "command" type &&
        dangerousCommands.any (fun cmd =>
          match command with
          | some (.str s) => s.startsWith cmd
          | _ => false) then
      { authorized := false,
        reason := some ("Command '" ++ jsToDisplay command ++ "' is not permitted") }
    else
      { authorized := true }

/-! ## `index.ts` — connection handling decisions -/

/-- Outcome of processing the first (authentication) message of a connection
in `handleConnection` (`index.ts` lines 100-129). -/
inductive FirstMsgAction where
  /-- `sendError(AUTH_FAILED)` followed by `ws.close()`; the client is not
  registered. -/
  | reject (error : String)
  /-- `registry.addClient` followed by the success acknowledgment. -/
  | accept (clientType : MessageSource)
deriving DecidableEq, Repr

/-- The first-message branch of `handleConnection`: authenticate; on failure
send `AUTH_FAILED` and close without registering, on success register the
client with the resolved role. -/
def handleFirstMessage (config : AuthConfig) (message : JsonVal) : FirstMsgAction :=
  let authResult := authenticate config message
  if !authResult.success then
    .reject ((authResult.error).getD "Authentication failed")
  else
    .accept ((authResult.clientType).getD .mcp)

/-- The registry contents after the first message: `addClient` runs only on
the accept path (`index.ts` line 122). -/
def registryAfterFirstMessage (config : AuthConfig) (registry : List String)
    (clientId : String) (message : JsonVal) : List String :=
  match handleFirstMessage config message with
  | .reject _ => registry
  | .accept _ => registry ++ [clientId]

/-- Outcome of processing a post-authentication message in
`handleConnection` (`index.ts` lines 131-165). -/
inductive HandleAction where
  /-- `sendError(SCHEMA_ERROR, ...)`, message not routed. -/
  | schemaError (errors : List String)
  /-- `sendError(PERMISSION_DENIED, ...)`, message not routed. -/
  | permissionDenied (reason : String)
  /-- `router.routeMessage` is invoked. -/
  | route
deriving DecidableEq, Repr

/-- The post-authentication branch of `handleConnection`: validate the
schema, then — only for messages whose `type` is `'command'` — run
`authorize`, and otherwise hand the message to the router. -/
def handleAuthedMessage (clientType : MessageSource) (message : JsonVal) : HandleAction :=
  let validationResult := validateMessage message
  if !validationResult.valid then
    .schemaError validationResult.errors
  else if isStrLit "command" (message.jsGet "type") then
    let authzResult := authorize clientType message
    if !authzResult.authorized then
      .permissionDenied ((authzResult.reason).getD "Not authorized")
    else
      .route
  else
    .route

/-! ## `shared/src/types.ts` — the typed wire envelope used by the router -/

/-- `MessageType` from `shared/src/types.ts`. -/
inductive MessageType where
  | event
  | command
  | query
  | response
  | error
deriving DecidableEq, Repr

/-- The wire string of a `MessageType` (the runtime value of `message.type`). -/
def MessageType.toWire : MessageType → String
  | .event => "event"
  | .command => "command"
  | .query => "query"
  | .response => "response"
  | .error => "error"

/-- The wire string of a `MessageSource`. -/
def MessageSource.toWire : MessageSource → String
  | .mcp => "mcp"
  | .minecraft => "minecraft"

/-- `BridgeMessage` from `shared/src/types.ts`: the parsed envelope the
router operates on. `receivedAt`/`forwardedAt` are the relay-assigned
latency-tracking fields, absent until the router stamps them. -/
structure BridgeMessage where
  version : String
  type : MessageType
  id : String
  timestamp : Int
  source : MessageSource
  payload : JsonVal
  receivedAt : Option Int := none
  forwardedAt : Option Int := none
deriving Repr

/-! ## `JSON.stringify` -/

/-- JSON string escaping of quote and backslash (the only characters needing
escapes in the values exercised here). -/
def jsonEscape (s : String) : String :=
  String.join (s.data.map (fun c =>
    if c = '"' then "\\\"" else if c = '\\' then "\\\\" else String.singleton c))

/-- Comma-join used by the object/array renderings below. -/
def joinComma : List String → String
  | [] => ""
  | [x] => x
  | x :: xs => x ++ "," ++ joinComma xs

/-- The `TypeError` message `JSON.stringify` raises on a `BigInt`. -/
def bigintError : String := "Do not know how to serialize a BigInt"

mutual
/-- `JSON.stringify` on a JS value: renders fields in insertion order and
throws (returns `.error`) when it meets a `BigInt` anywhere in the value. -/
def stringifyVal : JsonVal → Except String String
  | .null => .ok "null"
  | .bool true => .ok "true"
  | .bool false => .ok "false"
  | .num n => .ok (toString n)
  | .str s => .ok ("\"" ++ jsonEscape s ++ "\"")
  | .arr xs => do
    let parts ← stringifyElems xs
    .ok ("[" ++ joinComma parts ++ "]")
  | .obj fields => do
    let parts ← stringifyFields fields
    .ok ("\x7b" ++ joinComma parts ++ "\x7d")
  | .bigintVal _ => .error bigintError

/-- `JSON.stringify` over an array's elements. -/
def stringifyElems : List JsonVal → Except String (List String)
  | [] => .ok []
  | x :: xs => do
    let s ← stringifyVal x
    let rest ← stringifyElems xs
    .ok (s :: rest)

/-- `JSON.stringify` over an object's fields. -/
def stringifyFields : List (String × JsonVal) → Except String (List String)
  | [] => .ok []
  | (k, v) :: xs => do
    let s ← stringifyVal v
    let rest ← stringifyFields xs
    .ok (("\"" ++ jsonEscape k ++ "\":" ++ s) :: rest)
end

/-- `JSON.stringify(message)` for the envelope object, with the fields in
the order of the `BridgeMessage` interface; the two relay-assigned stamps
are rendered exactly when present (the router assigns them before
serializing). Throws exactly when the payload contains a `BigInt`. -/
def stringifyMessage (m : BridgeMessage) : Except String String := do
  let payloadStr ← stringifyVal m.payload
  .ok ("\x7b\"version\":\"" ++ jsonEscape m.version ++ "\",\"type\":\"" ++ m.type.toWire ++
    "\",\"id\":\"" ++ jsonEscape m.id ++ "\",\"timestamp\":" ++ toString m.timestamp ++
    ",\"source\":\"" ++ m.source.toWire ++ "\",\"payload\":" ++ payloadStr ++
    (match m.receivedAt with
     | some t => ",\"receivedAt\":" ++ toString t
     | none => "") ++
    (match m.forwardedAt with
     | some t => ",\"forwardedAt\":" ++ toString t
     | none => "") ++ "\x7d")

/-! ## Log events

Each constructor stands for one `logger.*` call site in `message-router.ts`
or `latency-monitor.ts`, carrying the structured fields the claims refer to. -/

/-- A structured log entry emitted by the router or the latency monitor. -/
inductive LogEvent where
  /-- `latency-monitor.ts` line 62: warn when a latency exceeds the 100 ms
  threshold. -/
  | warnLatencyExceeded (messageType : String) (latencyMs : Int)
  /-- `message-router.ts` line 43: warn that a message was queued because no
  destination is available. -/
  | warnNoDestination (messageId : String) (queueSize : Nat)
  /-- `message-router.ts` line 68: debug entry for a forwarded message. -/
  | debugForwarded (messageId : String) (destinationId : String) (latencyMs : Int)
  /-- `message-router.ts` line 76: a send to one destination threw. -/
  | errorForwardFailed (messageId : String) (destinationId : String)
  /-- `message-router.ts` line 128: queue overflow, oldest entry dropped. -/
  | warnQueueOverflow (droppedMessageId : Option String) (queueSize : Nat)
  /-- `message-router.ts` line 90: the outer catch of `routeMessage`. -/
  | errorRouting (messageId : String) (error : String)
deriving DecidableEq, Repr

/-! ## `latency-monitor.ts` -/

/-- `LatencyMetrics` from `latency-monitor.ts`. `minMs` starts at `Infinity`
in the source, modelled as `none`; the derived floating-point `avgMs`
(`totalMs / count`) is not carried. -/
structure LatencyMetrics where
  count : Nat
  totalMs : Int
  minMs : Option Int
  maxMs : Int
  over100ms : Nat
deriving DecidableEq, Repr

/-- `createEmptyMetrics` from `latency-monitor.ts` lines 34-43. -/
def createEmptyMetrics : LatencyMetrics :=
  { count := 0, totalMs := 0, minMs := none, maxMs := 0, over100ms := 0 }

/-- `latencyThreshold` (100 ms) from `latency-monitor.ts` line 23. -/
def latencyThreshold : Int := 100

/-- `updateMetrics` from `latency-monitor.ts` lines 70-80. -/
def updateMetrics (metrics : LatencyMetrics) (latencyMs : Int) : LatencyMetrics :=
  { count := metrics.count + 1
    totalMs := metrics.totalMs + latencyMs
    minMs := some (match metrics.minMs with
      | none => latencyMs
      | some m => min m latencyMs)
    maxMs := max metrics.maxMs latencyMs
    over100ms := if latencyMs > latencyThreshold then metrics.over100ms + 1 else metrics.over100ms }

/-- The mutable statistics of a `LatencyMonitor` (`stats.overall` and
`stats.byType`; the `Map` keyed by message type is an insertion-ordered
association list, as in V8). -/
structure LatencyState where
  overall : LatencyMetrics
  byType : List (String × LatencyMetrics)
deriving DecidableEq, Repr

/-- The `byType` part of `recordLatency`: ensure the key exists (a fresh key
is appended at the end, as `Map.set` does) and update its metrics in place. -/
def updateByType : List (String × LatencyMetrics) → String → Int →
    List (String × LatencyMetrics)
  | [], ty, ms => [(ty, updateMetrics createEmptyMetrics ms)]
  | (k, m) :: rest, ty, ms =>
    if k == ty then (k, updateMetrics m ms) :: rest
    else (k, m) :: updateByType rest ty ms

/-- `recordLatency` from `latency-monitor.ts` lines 49-68: update the overall
and the per-type aggregates, and log a warning when the latency exceeds the
100 ms threshold. -/
def recordLatency (st : LatencyState) (messageType : String) (latencyMs : Int) :
    LatencyState × List LogEvent :=
  ({ overall := updateMetrics st.overall latencyMs
     byType := updateByType st.byType messageType latencyMs },
   if latencyMs > latencyThreshold then [.warnLatencyExceeded messageType latencyMs] else [])

/-- The per-type count a `LatencyMonitor` reports for a message type (0 when
the type was never recorded). -/
def typeCount (st : LatencyState) (ty : String) : Nat :=
  match st.byType.lookup ty with
  | some m => m.count
  | none => 0

/-! ## `message-router.ts` -/

/-- `QueuedMessage` from `message-router.ts` lines 6-10. -/
structure QueuedMessage where
  message : BridgeMessage
  sourceClientId : String
  timestamp : Int
deriving Repr

/-- The mutable state of a `MessageRouter` (plus the latency monitor it holds
a reference to). The serialization cache is an insertion-ordered association
list, as the source's `Map` is. -/
structure RouterState where
  messageQueue : List QueuedMessage
  maxQueueSize : Nat := 1000
  serializationCache : List (String × String) := []
  maxCacheSize : Nat := 100
  latency : LatencyState
deriving Repr

/-- The cache key of `serializeMessage`: the message id and the envelope
timestamp joined by an underscore. -/
def cacheKey (m : BridgeMessage) : String :=
  m.id ++ "_" ++ toString m.timestamp

/-- `serializeMessage` from `message-router.ts` lines 102-122: return the
cached string for the `(id, timestamp)` key when present; otherwise
`JSON.stringify` (which may throw), evict the oldest cache entry when the
cache is full, and cache the result. -/
def serializeMessage (st : RouterState) (m : BridgeMessage) :
    Except String (RouterState × String) :=
  match st.serializationCache.lookup (cacheKey m) with
  | some s => .ok (st, s)
  | none =>
    match stringifyMessage m with
    | .error e => .error e
    | .ok serialized =>
      let cache :=
        if st.serializationCache.length ≥ st.maxCacheSize then
          st.serializationCache.tail
        else
          st.serializationCache
      .ok ({ st with serializationCache := cache ++ [(cacheKey m, serialized)] }, serialized)

/-- `queueMessage` from `message-router.ts` lines 124-140: when the queue is
at (or beyond) capacity, shift the oldest entry off and log the overflow
(with the queue size after the shift), then push the new entry. -/
def queueMessage (st : RouterState) (m : BridgeMessage) (sourceClientId : String)
    (now : Int) : RouterState × List LogEvent :=
  if st.messageQueue.length ≥ st.maxQueueSize then
    let removed := st.messageQueue.head?
    let shifted := st.messageQueue.tail
    ({ st with messageQueue := shifted ++ [⟨m, sourceClientId, now⟩] },
     [.warnQueueOverflow (removed.map (fun q => q.message.id)) shifted.length])
  else
    ({ st with messageQueue := st.messageQueue ++ [⟨m, sourceClientId, now⟩] }, [])

/-- One destination of a fan-out, with the outcome the environment supplies:
`sendOk` is whether `dest.ws.send` returns normally, and `sendTime` the
`Date.now()` reading the loop body takes after a successful send. -/
structure DestInfo where
  id : String
  sendOk : Bool
  sendTime : Int
deriving DecidableEq, Repr

/-- The `Date.now()` readings one `routeMessage` call takes outside the send
loop: at entry (`routeStart`), when stamping `forwardedAt`, and inside
`queueMessage`. -/
structure RouteClock where
  routeStart : Int
  forwardTime : Int
  queueTime : Int
deriving DecidableEq, Repr

/-- Result of the `for (const dest of destinations)` loop of `routeMessage`
(lines 59-83): final latency-monitor state, `successCount`, the payload
handed to each successful `ws.send`, and the log entries in order. -/
structure ForwardOutcome where
  latency : LatencyState
  successCount : Nat
  sends : List (String × String)
  logs : List LogEvent
deriving Repr

/-- The send loop of `routeMessage`: per destination, attempt the send; on
success count it, record the latency (`Date.now() - routeStart`) tagged by
the message type, and log a debug entry; on failure log an error and keep
going. -/
def forwardLoop (msgType : String) (msgId : String) (messageStr : String)
    (routeStart : Int) (ls : LatencyState) : List DestInfo → ForwardOutcome
  | [] => { latency := ls, successCount := 0, sends := [], logs := [] }
  | d :: rest =>
    if d.sendOk then
      let forwardLatency := d.sendTime - routeStart
      let (ls1, warnLogs) := recordLatency ls msgType forwardLatency
      let r := forwardLoop msgType msgId messageStr routeStart ls1 rest
      { latency := r.latency
        successCount := r.successCount + 1
        sends := (d.id, messageStr) :: r.sends
        logs := warnLogs ++ [.debugForwarded msgId d.id forwardLatency] ++ r.logs }
    else
      let r := forwardLoop msgType msgId messageStr routeStart ls rest
      { latency := r.latency
        successCount := r.successCount
        sends := r.sends
        logs := .errorForwardFailed msgId d.id :: r.logs }

/-- Everything one `routeMessage` call produces: the state afterwards, the
message as stamped in this call, the serialized string used (when the call
reached serialization), the successful sends, the logs, and the exception
the call propagates to its caller, if any. -/
structure RouteResult where
  state : RouterState
  stamped : BridgeMessage
  serialized : Option String
  sends : List (String × String)
  logs : List LogEvent
  thrown : Option String
deriving Repr

/-- `routeMessage` from `message-router.ts` lines 29-97. The destination
snapshot (the registry filtered to the opposite role, together with each
send's outcome and clock reading) and the call's own clock readings are
passed as data. Stamp `receivedAt`; with no destination, queue and warn;
otherwise stamp `forwardedAt`, serialize once via the cache, fan out, and
queue when every send failed. The outer `catch` logs
`'Error routing message'` with the message id and **re-throws**
(`throw error` on line 95), which the `thrown` field records; state
mutations made before the throw are kept, as in the source. -/
def routeMessage (st : RouterState) (message : BridgeMessage) (sourceClientId : String)
    (destinations : List DestInfo) (clock : RouteClock) : RouteResult :=
  let routeStart := clock.routeStart
  let msg1 := { message with receivedAt := some routeStart }
  if destinations.isEmpty then
    let (st1, qLogs) := queueMessage st msg1 sourceClientId clock.queueTime
    { state := st1, stamped := msg1, serialized := none, sends := [],
      logs := qLogs ++ [.warnNoDestination msg1.id st1.messageQueue.length],
      thrown := none }
  else
    let msg2 := { msg1 with forwardedAt := some clock.forwardTime }
    match serializeMessage st msg2 with
    | .error e =>
      { state := st, stamped := msg2, serialized := none, sends := [],
        logs := [.errorRouting msg2.id e], thrown := some e }
    | .ok (st1, messageStr) =>
      let fwd := forwardLoop msg2.type.toWire msg2.id messageStr routeStart
        st1.latency destinations
      let st2 := { st1 with latency := fwd.latency }
      if fwd.successCount == 0 then
        let (st3, qLogs) := queueMessage st2 msg2 sourceClientId clock.queueTime
        { state := st3, stamped := msg2, serialized := some messageStr,
          sends := fwd.sends, logs := fwd.logs ++ qLogs, thrown := none }
      else
        { state := st2, stamped := msg2, serialized := some messageStr,
          sends := fwd.sends, logs := fwd.logs, thrown := none }

/-! ## `index.ts` — heartbeat supervision

`checkHeartbeats` (lines 207-217) walks `wss.clients`; a socket whose
`isAlive` flag is `false` is terminated (and the termination fires that
socket's `close` handler, lines 185-190, which deregisters the client when it
was authenticated), otherwise the flag is cleared and a ping is sent; the
`pong` handler (lines 202-204) sets the flag back to `true`. -/

/-- One entry of `wss.clients` with the per-socket state `handleConnection`
attaches to it. -/
structure WsConn where
  clientId : String
  isAlive : Bool
  authenticated : Bool
deriving DecidableEq, Repr

/-- The `pong` handler: sets the socket's liveness flag. -/
def onPong (c : WsConn) : WsConn := { c with isAlive := true }

/-- The per-socket body of `checkHeartbeats`, folded over `wss.clients`:
returns the surviving sockets (flag cleared, ping sent — recorded by the
second component) and the terminated sockets. -/
def heartbeatSweep : List WsConn → List WsConn × List String × List WsConn
  | [] => ([], [], [])
  | c :: rest =>
    let (alive, pinged, terminated) := heartbeatSweep rest
    if c.isAlive = false then
      (alive, pinged, c :: terminated)
    else
      ({ c with isAlive := false } :: alive, c.clientId :: pinged, terminated)

/-- The `close` handler of a terminated socket (`index.ts` lines 185-190):
deregister the client only when the connection had authenticated. -/
def closeHandler (registry : List String) (c : WsConn) : List String :=
  if c.authenticated then registry.filter (fun id => id ≠ c.clientId) else registry

/-- A whole heartbeat tick of the server: sweep `wss.clients`, then let each
terminated socket's `close` handler run against the registry. Returns the
remaining sockets, the ids pinged, and the registry afterwards. -/
def heartbeatTick (clients : List WsConn) (registry : List String) :
    List WsConn × List String × List String :=
  let (alive, pinged, terminated) := heartbeatSweep clients
  (alive, pinged, terminated.foldl closeHandler registry)

/-! ## `reconnection.ts` -/

/-- `ReconnectionConfig` from `reconnection.ts` lines 4-8. -/
structure ReconnectionConfig where
  maxAttempts : Nat
  initialDelay : Nat
  maxDelay : Nat
deriving DecidableEq, Repr

/-- The mutable state of a `ReconnectionManager`: the `attempts` counter,
the pending retry timer (`some d` is a timer armed with delay `d`), and
whether a socket exists that has not yet emitted `close` (so that a
`ws.close()` call still fires the registered `close` handler). -/
structure ReconnState where
  attempts : Nat
  reconnectTimeout : Option Nat := none
  wsOpen : Bool := false
deriving DecidableEq, Repr

/-- `scheduleReconnection` from `reconnection.ts` lines 91-117: give up once
`attempts >= maxAttempts`; otherwise compute the capped exponential backoff
`min(initialDelay * 2^attempts, maxDelay)`, increment `attempts`, and arm
the retry timer with that delay. The second component is the delay
scheduled by this call, if any. -/
def scheduleReconnection (cfg : ReconnectionConfig) (st : ReconnState) :
    ReconnState × Option Nat :=
  if st.attempts ≥ cfg.maxAttempts then
    (st, none)
  else
    let delay := min (cfg.initialDelay * 2 ^ st.attempts) cfg.maxDelay
    ({ st with attempts := st.attempts + 1, reconnectTimeout := some delay }, some delay)

/-- The `close` handler registered in `attemptConnection` (lines 77-80): the
socket is now closed, and `scheduleReconnection` runs. -/
def onClose (cfg : ReconnectionConfig) (st : ReconnState) : ReconnState × Option Nat :=
  scheduleReconnection cfg { st with wsOpen := false }

/-- The `open` handler (lines 51-57): reset `attempts` to 0. -/
def onOpen (st : ReconnState) : ReconnState :=
  { st with attempts := 0 }

/-- The retry timer firing (lines 113-115): `attemptConnection` runs, which
constructs a fresh socket. -/
def onTimerFire (st : ReconnState) : ReconnState :=
  { st with reconnectTimeout := none, wsOpen := true }

/-- `disconnect` from `reconnection.ts` lines 119-127 **together with the
`close` event it provokes**: `clearTimeout` cancels any pending retry timer,
then `this.ws.close()` — when a not-yet-closed socket exists — fires the
`close` handler registered in `attemptConnection`, which calls
`scheduleReconnection`. -/
def disconnect (cfg : ReconnectionConfig) (st : ReconnState) : ReconnState :=
  let st1 := { st with reconnectTimeout := none }
  if st.wsOpen then
    (onClose cfg st1).1
  else
    st1

/-- The delays announced by a sequence of `n` consecutive `close` events
(every reconnection attempt failing), starting from state `st`. -/
def closeDelays (cfg : ReconnectionConfig) (st : ReconnState) : Nat → List (Option Nat)
  | 0 => []
  | n + 1 =>
    let (st1, d) := onClose cfg st
    d :: closeDelays cfg st1 n

/-! ## Concrete wire values used to instantiate the theorems -/

/-- A schema-shaped event message whose envelope timestamp and payload
timestamp are both the number 0. -/
def zeroTimestampMsg : JsonVal :=
  .obj [("version", .str "1.0.0"), ("type", .str "event"), ("id", .str "m1"),
    ("timestamp", .num 0), ("source", .str "minecraft"),
    ("payload", .obj [("eventType", .str "player_join"), ("timestamp", .num 0),
      ("data", .obj [("player", .str "alice")])])]

/-- A schema-valid query message (as a Minecraft-role client would send it
when misbehaving: queries are reserved to MCP clients). -/
def sampleQuery : JsonVal :=
  .obj [("version", .str "1.0.0"), ("type", .str "query"), ("id", .str "q1"),
    ("timestamp", .num 5), ("source", .str "minecraft"),
    ("payload", .obj [("query", .str "server_info"), ("args", .obj [])])]

/-- A schema-valid event message sent from the wrong role. -/
def sampleEventFromMcp : JsonVal :=
  .obj [("version", .str "1.0.0"), ("type", .str "event"), ("id", .str "e1"),
    ("timestamp", .num 5), ("source", .str "mcp"),
    ("payload", .obj [("eventType", .str "player_join"), ("timestamp", .num 7),
      ("data", .obj [("player", .str "alice")])])]

/-- A schema-valid, non-dangerous command message. -/
def sampleCommand : JsonVal :=
  .obj [("version", .str "1.0.0"), ("type", .str "command"), ("id", .str "c1"),
    ("timestamp", .num 5), ("source", .str "minecraft"),
    ("payload", .obj [("command", .str "give"), ("args", .obj [])])]

/-- A first message carrying a numeric (non-string) credential. -/
def badTokenMsg : JsonVal :=
  .obj [("version", .str "1.0.0"), ("type", .str "command"), ("id", .str "a1"),
    ("timestamp", .num 5), ("source", .str "mcp"),
    ("payload", .obj [("authToken", .num 5)])]

/-- A first message carrying a string credential matching no configured set. -/
def unknownTokenMsg : JsonVal :=
  .obj [("version", .str "1.0.0"), ("type", .str "command"), ("id", .str "a2"),
    ("timestamp", .num 5), ("source", .str "mcp"),
    ("payload", .obj [("authToken", .str "bad-token")])]

/-- The token configuration of the concrete scenarios. -/
def sampleAuthConfig : AuthConfig := ⟨["p1"], "c1"⟩

/-- A latency monitor that has recorded nothing yet. -/
def emptyLatency : LatencyState := ⟨createEmptyMetrics, []⟩

/-- A freshly constructed router: empty queue, empty cache, default sizes. -/
def freshRouter : RouterState := { messageQueue := [], latency := emptyLatency }

/-- A parsed event envelope, as the router receives it. -/
def sampleEventMsg : BridgeMessage :=
  { version := "1.0.0", type := .event, id := "m1", timestamp := 5,
    source := .minecraft, payload := .null }

/-- An envelope whose payload `JSON.stringify` refuses to serialize. -/
def bigintMsg : BridgeMessage := { sampleEventMsg with payload := .bigintVal 1 }

/-- First routing of `sampleEventMsg`, at time 100, one destination, send ok. -/
def routeOnce : RouteResult :=
  routeMessage freshRouter sampleEventMsg "src1" [⟨"d1", true, 101⟩] ⟨100, 101, 103⟩

/-- The same message routed again (a client re-send), 100 ms later: the
`(id, timestamp)` cache key collides with the first call's entry. -/
def routeTwice : RouteResult :=
  routeMessage routeOnce.state sampleEventMsg "src1" [⟨"d1", true, 201⟩] ⟨200, 201, 203⟩

/-! ## Helper lemmas -/

/-- A list with a member is not empty. -/
theorem isEmpty_false_of_mem {α : Type} {a : α} {l : List α} (h : a ∈ l) :
    l.isEmpty = false := by
  cases l with
  | nil => cases h
  | cons x xs => rfl

/-! ## Claims -/

/-- **C10.** For every message whose envelope `timestamp` field is the number
0 — and every event message whose payload `timestamp` is 0 — `validateMessage`
returns `valid = false` together with the missing-or-invalid-timestamp error
for that position: the falsy check `!message.timestamp` treats the well-typed
number 0 as absent. -/
theorem zero_timestamp_rejected (m : JsonVal) :
    (m.jsGet "timestamp" = some (.num 0) →
      (validateMessage m).valid = false ∧
      "Missing or invalid timestamp field" ∈ (validateMessage m).errors) ∧
    (∀ payload : List (String × JsonVal),
      m.jsGet "type" = some (.str "event") →
      m.jsGet "payload" = some (.obj payload) →
      payload.lookup "timestamp" = some (.num 0) →
      (validateMessage m).valid = false ∧
      "Event payload must have timestamp field" ∈ (validateMessage m).errors) := by
  constructor
  · intro h
    have hmem : "Missing or invalid timestamp field" ∈ (validateMessage m).errors := by
      simp only [validateMessage, h, isTruthyNumber]
      simp
    exact ⟨by simpa [validateMessage] using isEmpty_false_of_mem hmem, hmem⟩
  · intro payload hty hpl hts
    have hmem : "Event payload must have timestamp field" ∈ (validateMessage m).errors := by
      simp only [validateMessage]
      simp only [hty, hpl]
      simp only [isStrLit, jsGetOpt, JsonVal.jsGet, isTruthyObject, truthy, isObjectType]
      simp only [hts, isTruthyNumber]
      simp
    exact ⟨by simpa [validateMessage] using isEmpty_false_of_mem hmem, hmem⟩

/-- Witness for C10 at a concrete event message with both timestamps 0. -/
theorem zero_timestamp_rejected_witness :
    ((validateMessage zeroTimestampMsg).valid = false ∧
      "Missing or invalid timestamp field" ∈ (validateMessage zeroTimestampMsg).errors) ∧
    ((validateMessage zeroTimestampMsg).valid = false ∧
      "Event payload must have timestamp field" ∈ (validateMessage zeroTimestampMsg).errors) :=
  ⟨(zero_timestamp_rejected zeroTimestampMsg).1 rfl,
   (zero_timestamp_rejected zeroTimestampMsg).2 _ rfl rfl rfl⟩

/-- **C8.** For every first message whose payload credential field is absent,
not a string, or a string matching no configured token set, `authenticate`
returns failure, `handleConnection` rejects the connection (`AUTH_FAILED`
error followed by `ws.close()`), and the client is never added to the
connection registry. -/
theorem invalid_credential_rejected (config : AuthConfig) (message : JsonVal)
    (registry : List String) (clientId : String)
    (h : ∀ s : String, jsGetOpt (message.jsGet "payload") "authToken" = some (.str s) →
      s ∉ config.mcpAuthTokens ∧ s ≠ config.minecraftAuthToken) :
    (authenticate config message).success = false ∧
    (∃ e, handleFirstMessage config message = .reject e) ∧
    registryAfterFirstMessage config registry clientId message = registry := by
  have hfail : (authenticate config message).success = false := by
    unfold authenticate
    cases htok : jsGetOpt (message.jsGet "payload") "authToken" with
    | none => rfl
    | some v =>
      cases v with
      | str s =>
        obtain ⟨h1, h2⟩ := h s htok
        by_cases hs : s = ""
        · simp [hs]
        · simp [hs, h1, h2]
      | null => rfl
      | bool b => rfl
      | num n => rfl
      | arr xs => rfl
      | obj fs => rfl
      | bigintVal n => rfl
  refine ⟨hfail, ?_, ?_⟩
  · refine ⟨(authenticate config message).error.getD "Authentication failed", ?_⟩
    unfold handleFirstMessage
    simp [hfail]
  · unfold registryAfterFirstMessage handleFirstMessage
    simp [hfail]

/-- Witness for C8: a numeric credential and an unknown string credential
against the configured sets `{mcp: ["p1"], minecraft: "c1"}`. -/
theorem invalid_credential_rejected_witness :
    ((authenticate sampleAuthConfig badTokenMsg).success = false ∧
      (∃ e, handleFirstMessage sampleAuthConfig badTokenMsg = .reject e) ∧
      registryAfterFirstMessage sampleAuthConfig ["c0"] "client_1" badTokenMsg = ["c0"]) ∧
    ((authenticate sampleAuthConfig unknownTokenMsg).success = false ∧
      (∃ e, handleFirstMessage sampleAuthConfig unknownTokenMsg = .reject e) ∧
      registryAfterFirstMessage sampleAuthConfig ["c0"] "client_1" unknownTokenMsg = ["c0"]) :=
  ⟨invalid_credential_rejected sampleAuthConfig badTokenMsg ["c0"] "client_1"
      (fun s hs => by simp [badTokenMsg, jsGetOpt, JsonVal.jsGet, List.lookup] at hs),
   invalid_credential_rejected sampleAuthConfig unknownTokenMsg ["c0"] "client_1"
      (fun s hs => by
        simp [unknownTokenMsg, jsGetOpt, JsonVal.jsGet, List.lookup] at hs
        subst hs
        refine ⟨by decide, by decide⟩)⟩

/-- **C3 counterexample.** A schema-valid `query` message from a client whose
role is `minecraft` is handed to `routeMessage` (action `.route`) even though
the capability matrix of `authorize` would deny it: `handleConnection` only
invokes `authorize` for `command` messages, so the claim that queries and
events from the wrong role are rejected with `PERMISSION_DENIED` and never
routed is false. -/
theorem valid_query_routed_unauthorized_cx :
    (validateMessage sampleQuery).valid = true ∧
    (authorize .minecraft sampleQuery).authorized = false ∧
    handleAuthedMessage .minecraft sampleQuery = .route ∧
    (validateMessage sampleEventFromMcp).valid = true ∧
    (authorize .mcp sampleEventFromMcp).authorized = false ∧
    handleAuthedMessage .mcp sampleEventFromMcp = .route := by
  refine ⟨rfl, rfl, rfl, rfl, rfl, rfl⟩

/-- **C3 (amended).** The authorization check runs before routing only for
`command` messages: a schema-valid command from a client whose role is not
`mcp` is rejected with `PERMISSION_DENIED` and never routed, while
schema-valid `query` and `event` messages are routed without `authorize`
ever being invoked — although `authorize` itself, if consulted, would deny a
query from a non-`mcp` client and an event from a non-`minecraft` client. -/
theorem authorization_only_for_commands (clientType : MessageSource) (m : JsonVal) :
    ((validateMessage m).valid = true → m.jsGet "type" = some (.str "command") →
      clientType ≠ .mcp →
      handleAuthedMessage clientType m =
        .permissionDenied "Only MCP clients can send commands and queries") ∧
    ((validateMessage m).valid = true →
      (m.jsGet "type" = some (.str "query") ∨ m.jsGet "type" = some (.str "event")) →
      handleAuthedMessage clientType m = .route) ∧
    (m.jsGet "type" = some (.str "query") → clientType ≠ .mcp →
      (authorize clientType m).authorized = false) ∧
    (m.jsGet "type" = some (.str "event") → clientType ≠ .minecraft →
      (authorize clientType m).authorized = false) := by
  refine ⟨?_, ?_, ?_, ?_⟩
  · intro hv hty hct
    unfold handleAuthedMessage authorize
    simp only [hv, hty]
    cases clientType with
    | mcp => exact absurd rfl hct
    | minecraft => simp [isStrLit]
  · intro hv hty
    unfold handleAuthedMessage
    simp only [hv]
    rcases hty with hty | hty <;> simp [hty, isStrLit]
  · intro hty hct
    unfold authorize
    simp only [hty]
    cases clientType with
    | mcp => exact absurd rfl hct
    | minecraft => simp [isStrLit]
  · intro hty hct
    unfold authorize
    simp only [hty]
    cases clientType with
    | minecraft => exact absurd rfl hct
    | mcp => simp [isStrLit]

/-- Witness for the amended C3: a concrete command from a Minecraft-role
client is denied, and the concrete query of the counterexample scenario is
routed. -/
theorem authorization_only_for_commands_witness :
    handleAuthedMessage .minecraft sampleCommand =
      .permissionDenied "Only MCP clients can send commands and queries" ∧
    handleAuthedMessage .mcp sampleQuery = .route :=
  ⟨(authorization_only_for_commands .minecraft sampleCommand).1 rfl rfl (by decide),
   (authorization_only_for_commands .mcp sampleQuery).2.1 rfl (Or.inl rfl)⟩

/-- **C1 counterexample.** `routeMessage` does propagate an exception to its
caller: serializing a message whose payload holds a `BigInt` makes
`JSON.stringify` throw inside the `try`, and the outer `catch` re-throws
(`throw error`, `message-router.ts` line 95), so `thrown` is non-empty. -/
theorem routing_error_propagates_cx :
    (routeMessage freshRouter bigintMsg "src1" [⟨"d1", true, 101⟩]
      ⟨100, 101, 103⟩).thrown = some bigintError := rfl

/-- **C1 (amended).** Any error raised while routing is caught and logged
with the message id, and then **re-thrown** to the caller (`handleConnection`
catches it and emits a generic internal-error response): whenever a
`routeMessage` call propagates an exception, the `'Error routing message'`
entry carrying the message id and the error is among the call's logs. -/
theorem routing_error_logged_and_rethrown (st : RouterState) (msg : BridgeMessage)
    (srcId : String) (dests : List DestInfo) (clock : RouteClock) (e : String)
    (h : (routeMessage st msg srcId dests clock).thrown = some e) :
    LogEvent.errorRouting msg.id e ∈ (routeMessage st msg srcId dests clock).logs := by
  cases dests with
  | nil => simp [routeMessage] at h
  | cons d rest =>
    simp only [routeMessage, List.isEmpty_cons, Bool.false_eq_true, if_false] at h ⊢
    revert h
    cases serializeMessage st { msg with receivedAt := some clock.routeStart, forwardedAt := some clock.forwardTime } with
    | error e2 =>
      intro h
      simp at h ⊢
      simp_all
    | ok pr =>
      obtain ⟨st1, messageStr⟩ := pr
      intro h
      split at h
      · simp_all
      · split at h <;> simp at h

/-- Witness for the amended C1 at the `BigInt`-payload input. -/
theorem routing_error_logged_and_rethrown_witness :
    LogEvent.errorRouting "m1" bigintError ∈
      (routeMessage freshRouter bigintMsg "src2" [⟨"d1", true, 101⟩]
        ⟨100, 101, 103⟩).logs :=
  routing_error_logged_and_rethrown freshRouter bigintMsg "src2" [⟨"d1", true, 101⟩]
    ⟨100, 101, 103⟩ bigintError rfl

/-- **C2 counterexample.** With two destinations whose sends both succeed,
one `routeMessage` call increments the latency monitor's per-type count for
the message's type by 2, not by 1: `recordLatency` sits inside the
per-destination loop (`message-router.ts` line 66), once per successful
send. -/
theorem latency_count_per_destination_cx :
    typeCount freshRouter.latency "event" = 0 ∧
    typeCount (routeMessage freshRouter sampleEventMsg "srcA"
        [⟨"d1", true, 101⟩, ⟨"d2", true, 102⟩] ⟨100, 101, 103⟩).state.latency "event" = 2 :=
  ⟨rfl, rfl⟩

/-- Looking up the recorded type after `updateByType` yields the updated
metrics of the previously stored (or freshly created) entry. -/
theorem lookup_updateByType (l : List (String × LatencyMetrics)) (ty : String) (ms : Int) :
    (updateByType l ty ms).lookup ty =
      some (updateMetrics ((l.lookup ty).getD createEmptyMetrics) ms) := by
  induction l with
  | nil => simp [updateByType, List.lookup]
  | cons kv rest ih =>
    obtain ⟨k, m⟩ := kv
    by_cases hk : k = ty
    · subst hk
      simp [updateByType, List.lookup]
    · have hb1 : (k == ty) = false := by simp [hk]
      have hb2 : (ty == k) = false := by simp [Ne.symm hk]
      simp [updateByType, List.lookup, hb1, hb2, ih]

/-- `recordLatency` grows the per-type count of its message type by one. -/
theorem typeCount_recordLatency (ls : LatencyState) (ty : String) (ms : Int) :
    typeCount (recordLatency ls ty ms).1 ty = typeCount ls ty + 1 := by
  simp only [typeCount, recordLatency, lookup_updateByType]
  cases h : ls.byType.lookup ty <;> simp [h, updateMetrics, createEmptyMetrics]

/-- The send loop grows the per-type count by the number of destinations
whose send succeeded. -/
theorem forwardLoop_typeCount (ty mid s : String) (rs : Int) (ls : LatencyState)
    (dests : List DestInfo) :
    typeCount (forwardLoop ty mid s rs ls dests).latency ty =
      typeCount ls ty + dests.countP (fun d => d.sendOk) := by
  induction dests generalizing ls with
  | nil => simp [forwardLoop]
  | cons d rest ih =>
    cases hok : d.sendOk with
    | true =>
      simp only [forwardLoop, hok, if_true, recordLatency]
      rw [ih]
      simp only [typeCount, lookup_updateByType]
      cases h : ls.byType.lookup ty <;>
        simp [h, updateMetrics, createEmptyMetrics, List.countP_cons, hok] <;> omega
    | false =>
      simp only [forwardLoop, hok, Bool.false_eq_true, if_false]
      rw [ih]
      simp [List.countP_cons, hok]

/-- A successful `serializeMessage` leaves every router field except the
serialization cache unchanged. -/
theorem serializeMessage_fields (st : RouterState) (m : BridgeMessage)
    (st' : RouterState) (s : String)
    (h : serializeMessage st m = .ok (st', s)) :
    st'.latency = st.latency ∧ st'.messageQueue = st.messageQueue ∧
      st'.maxQueueSize = st.maxQueueSize := by
  unfold serializeMessage at h
  split at h
  · simp at h
    obtain ⟨h1, h2⟩ := h
    subst h1
    exact ⟨rfl, rfl, rfl⟩
  · split at h
    · simp at h
    · simp at h
      obtain ⟨h1, h2⟩ := h
      subst h1
      exact ⟨rfl, rfl, rfl⟩

/-- `queueMessage` leaves the latency monitor untouched. -/
theorem queueMessage_latency (st : RouterState) (m : BridgeMessage) (src : String)
    (now : Int) : ((queueMessage st m src now).1).latency = st.latency := by
  unfold queueMessage
  split <;> rfl

/-- `queueMessage` leaves the queue capacity untouched. -/
theorem queueMessage_max (st : RouterState) (m : BridgeMessage) (src : String)
    (now : Int) : ((queueMessage st m src now).1).maxQueueSize = st.maxQueueSize := by
  unfold queueMessage
  split <;> rfl

/-- **C2 (amended).** For a call with a non-empty destination set that does
not throw, the latency monitor's per-type count for `message.type` grows by
exactly the number of destinations whose send succeeded — one sample per
successful destination, not one per call: `recordLatency` sits inside the
fan-out loop. -/
theorem latency_count_per_successful_send (st : RouterState) (msg : BridgeMessage)
    (srcId : String) (dests : List DestInfo) (clock : RouteClock)
    (hne : dests ≠ [])
    (hok : (routeMessage st msg srcId dests clock).thrown = none) :
    typeCount ((routeMessage st msg srcId dests clock).state.latency) msg.type.toWire =
      typeCount st.latency msg.type.toWire + dests.countP (fun d => d.sendOk) := by
  cases dests with
  | nil => exact absurd rfl hne
  | cons d rest =>
    simp only [routeMessage, List.isEmpty_cons, Bool.false_eq_true, if_false] at hok ⊢
    revert hok
    cases hser : serializeMessage st { msg with receivedAt := some clock.routeStart, forwardedAt := some clock.forwardTime } with
    | error e2 =>
      intro hok
      simp at hok
    | ok pr =>
      obtain ⟨st1, messageStr⟩ := pr
      intro hok
      obtain ⟨hlat, hq, hmax⟩ := serializeMessage_fields st _ st1 messageStr hser
      clear hok
      split
      · rename_i e2 heq
        simp at heq
      · rename_i st1' messageStr' heq
        simp at heq
        obtain ⟨h1, h2⟩ := heq
        subst h1
        subst h2
        split
        · rw [queueMessage_latency]
          simp only [forwardLoop_typeCount, hlat]
        · simp only [forwardLoop_typeCount, hlat]

/-- Witness for the amended C2: one of two destinations succeeds, and the
per-type count grows by exactly one. -/
theorem latency_count_per_successful_send_witness :
    typeCount (routeMessage freshRouter sampleEventMsg "srcB"
        [⟨"d1", true, 101⟩, ⟨"d2", false, 0⟩] ⟨100, 101, 103⟩).state.latency "event" =
      typeCount freshRouter.latency "event" +
        ([⟨"d1", true, 101⟩, ⟨"d2", false, 0⟩] : List DestInfo).countP (fun d => d.sendOk) :=
  latency_count_per_successful_send freshRouter sampleEventMsg "srcB"
    [⟨"d1", true, 101⟩, ⟨"d2", false, 0⟩] ⟨100, 101, 103⟩ (by decide) rfl

/-- Whether every string handed to `ws.send` in a call equals the call's
single serialized string. -/
def allSendsEqual (r : RouteResult) : Bool :=
  r.sends.all (fun p => some p.2 == r.serialized)

/-- **C5 counterexample.** The `(id, timestamp)` serialization cache is not a
no-op: routing the same message a second time (same id and envelope
timestamp, later clock) sends the *first* call's cached string, which embeds
the first call's `receivedAt`/`forwardedAt` stamps and therefore differs
from `JSON.stringify` of the message as stamped in the second call. -/
theorem serialization_cache_returns_stale_cx :
    routeTwice.sends.map Prod.snd = routeOnce.serialized.toList ∧
    routeOnce.serialized.isSome = true ∧
    routeTwice.serialized = routeOnce.serialized ∧
    routeTwice.serialized ≠ (stringifyMessage routeTwice.stamped).toOption :=
  ⟨rfl, rfl, rfl, by decide⟩

/-- Every send of the loop carries the one string the loop was given. -/
theorem forwardLoop_sends_all (ty mid s : String) (rs : Int) (ls : LatencyState)
    (dests : List DestInfo) (q : String → Bool) (hq : q s = true) :
    (forwardLoop ty mid s rs ls dests).sends.all (fun p => q p.2) = true := by
  induction dests generalizing ls with
  | nil => simp [forwardLoop]
  | cons d rest ih =>
    cases hok : d.sendOk with
    | true => simp [forwardLoop, hok, recordLatency, hq, ih]
    | false => simp [forwardLoop, hok, ih]

/-- **C5 (amended).** Within one `routeMessage` invocation with a non-empty
destination set, the identical serialized string is sent to every
destination; and when the `(id, timestamp)` key is not already in the
serialization cache, that string is exactly `JSON.stringify` of the message
as stamped in that invocation. (When an earlier call already cached the
key, the stale cached string is reused instead — see the counterexample.) -/
theorem serialize_once_per_call (st : RouterState) (msg : BridgeMessage)
    (srcId : String) (dests : List DestInfo) (clock : RouteClock)
    (hne : dests ≠ [])
    (hok : (routeMessage st msg srcId dests clock).thrown = none) :
    allSendsEqual (routeMessage st msg srcId dests clock) = true ∧
    (st.serializationCache.lookup (cacheKey msg) = none →
      (routeMessage st msg srcId dests clock).serialized =
        (stringifyMessage (routeMessage st msg srcId dests clock).stamped).toOption) := by
  cases dests with
  | nil => exact absurd rfl hne
  | cons d rest =>
    simp only [routeMessage, List.isEmpty_cons, Bool.false_eq_true, if_false] at hok ⊢
    revert hok
    cases hser : serializeMessage st { msg with receivedAt := some clock.routeStart, forwardedAt := some clock.forwardTime } with
    | error e2 =>
      intro hok
      simp at hok
    | ok pr =>
      obtain ⟨st1, messageStr⟩ := pr
      intro hok
      clear hok
      constructor
      · unfold allSendsEqual
        split
        · rename_i e2 heq
          simp at heq
        · rename_i st1' messageStr' heq
          simp at heq
          obtain ⟨h1, h2⟩ := heq
          subst h1
          subst h2
          split <;>
            exact forwardLoop_sends_all _ _ messageStr _ _ _
              (fun x => some x == some messageStr) (by simp)
      · intro hmiss
        unfold serializeMessage at hser
        rw [show cacheKey { msg with receivedAt := some clock.routeStart, forwardedAt := some clock.forwardTime } = cacheKey msg from rfl] at hser
        rw [hmiss] at hser
        revert hser
        cases hstr : stringifyMessage { msg with receivedAt := some clock.routeStart, forwardedAt := some clock.forwardTime } with
        | error e3 =>
          intro hser
          simp at hser
        | ok s2 =>
          intro hser
          simp at hser
          obtain ⟨h1, h2⟩ := hser
          subst h2
          split
          · rename_i e2 heq
            simp at heq
          · rename_i st1' messageStr' heq
            simp at heq
            obtain ⟨h3, h4⟩ := heq
            subst h3
            subst h4
            split <;> simp [hstr, Except.toOption]

/-- Witness for the amended C5: a single call from an empty cache sends the
freshly serialized string to its destination. -/
theorem serialize_once_per_call_witness :
    allSendsEqual routeOnce = true ∧
    routeOnce.serialized = (stringifyMessage routeOnce.stamped).toOption :=
  ⟨(serialize_once_per_call freshRouter sampleEventMsg "src1" [⟨"d1", true, 101⟩]
      ⟨100, 101, 103⟩ (by decide) rfl).1,
   (serialize_once_per_call freshRouter sampleEventMsg "src1" [⟨"d1", true, 101⟩]
      ⟨100, 101, 103⟩ (by decide) rfl).2 rfl⟩

/-- The queue transition `queueMessage` performs, in the abstract: when at
(or beyond) capacity shift the oldest entry off, then push the new one. -/
def dropOldestPush {α : Type} (maxSize : Nat) (q : List α) (a : α) : List α :=
  if q.length ≥ maxSize then q.tail ++ [a] else q ++ [a]

/-- `queueMessage` acts on the queue as `dropOldestPush` with the new entry. -/
theorem queueMessage_messageQueue (st : RouterState) (m : BridgeMessage)
    (src : String) (now : Int) :
    ((queueMessage st m src now).1).messageQueue =
      dropOldestPush st.maxQueueSize st.messageQueue ⟨m, src, now⟩ := by
  unfold queueMessage dropOldestPush
  split <;> rfl

/-- The entry a `routeMessage` call with no destinations enqueues: the
message stamped with `receivedAt`, the source client, and the enqueue time. -/
def queuedEntry (srcId : String) (clock : RouteClock) (m : BridgeMessage) :
    QueuedMessage :=
  ⟨{ m with receivedAt := some clock.routeStart }, srcId, clock.queueTime⟩

/-- One `routeMessage` call with an empty destination set, as a state
transition (the claim's "enqueue operation with no destinations available"). -/
def noDestRoute (srcId : String) (clock : RouteClock) (st : RouterState)
    (m : BridgeMessage) : RouterState :=
  (routeMessage st m srcId [] clock).state

/-- With no destinations, `routeMessage` performs exactly the drop-oldest
push of the stamped entry. -/
theorem noDestRoute_messageQueue (srcId : String) (clock : RouteClock)
    (st : RouterState) (m : BridgeMessage) :
    (noDestRoute srcId clock st m).messageQueue =
      dropOldestPush st.maxQueueSize st.messageQueue (queuedEntry srcId clock m) := by
  unfold noDestRoute routeMessage
  simp only [List.isEmpty_nil, if_true]
  rw [queueMessage_messageQueue]
  rfl

/-- With no destinations, `routeMessage` keeps the queue capacity. -/
theorem noDestRoute_max (srcId : String) (clock : RouteClock)
    (st : RouterState) (m : BridgeMessage) :
    (noDestRoute srcId clock st m).maxQueueSize = st.maxQueueSize := by
  unfold noDestRoute routeMessage
  simp only [List.isEmpty_nil, if_true]
  rw [queueMessage_max]

/-- Below capacity, iterated drop-oldest pushes are plain appends. -/
theorem foldl_dropOldestPush_small {α : Type} (N : Nat) (es : List α) (q : List α)
    (h : q.length + es.length ≤ N) : es.foldl (dropOldestPush N) q = q ++ es := by
  induction es generalizing q with
  | nil => simp
  | cons e rest ih =>
    have hq : ¬ q.length ≥ N := by
      simp only [List.length_cons] at h
      omega
    simp only [List.foldl_cons, dropOldestPush, if_neg hq]
    rw [ih]
    · simp
    · simp only [List.length_append, List.length_cons, List.length_nil] at h ⊢
      omega

/-- One drop-oldest push never grows the queue beyond capacity. -/
theorem length_dropOldestPush {α : Type} (N : Nat) (hN : 1 ≤ N) (q : List α) (a : α)
    (h : q.length ≤ N) : (dropOldestPush N q a).length ≤ N := by
  unfold dropOldestPush
  have ht := List.length_tail q
  split <;> simp [List.length_append] <;> omega

/-- Iterated drop-oldest pushes never grow the queue beyond capacity. -/
theorem foldl_dropOldestPush_le {α : Type} (N : Nat) (hN : 1 ≤ N) (es : List α)
    (q : List α) (h : q.length ≤ N) :
    (es.foldl (dropOldestPush N) q).length ≤ N := by
  induction es generalizing q with
  | nil => simpa
  | cons e rest ih =>
    rw [List.foldl_cons]
    exact ih _ (length_dropOldestPush N hN q e h)

/-- `N + 1` drop-oldest pushes into an empty queue of capacity `N` retain
exactly the last `N` entries, in order. -/
theorem foldl_dropOldestPush_full {α : Type} (N : Nat) (hN : 1 ≤ N) (es : List α)
    (hlen : es.length = N + 1) : es.foldl (dropOldestPush N) [] = es.drop 1 := by
  have hne : es ≠ [] := by
    intro hcon
    subst hcon
    simp at hlen
  obtain ⟨front, last, hfl⟩ : ∃ front last, es = front ++ [last] :=
    ⟨es.dropLast, es.getLast hne, (List.dropLast_append_getLast hne).symm⟩
  subst hfl
  have hfront : front.length = N := by
    simp only [List.length_append, List.length_singleton] at hlen
    omega
  rw [List.foldl_append]
  rw [foldl_dropOldestPush_small N front [] (by simp [hfront])]
  simp only [List.nil_append, List.foldl_cons, List.foldl_nil]
  unfold dropOldestPush
  rw [if_pos (by omega)]
  rw [List.drop_append_of_le_length (by omega)]
  simp [List.drop_one]

/-- Folding no-destination routing steps acts on the queue as folding
drop-oldest pushes of the corresponding entries, keeping the capacity. -/
theorem foldl_noDestRoute_queue (srcId : String) (clock : RouteClock)
    (msgs : List BridgeMessage) (st : RouterState) :
    ((msgs.foldl (noDestRoute srcId clock) st).messageQueue =
      (msgs.map (queuedEntry srcId clock)).foldl
        (dropOldestPush st.maxQueueSize) st.messageQueue) ∧
    (msgs.foldl (noDestRoute srcId clock) st).maxQueueSize = st.maxQueueSize := by
  induction msgs generalizing st with
  | nil => exact ⟨rfl, rfl⟩
  | cons m rest ih =>
    simp only [List.foldl_cons, List.map_cons]
    obtain ⟨ih1, ih2⟩ := ih (noDestRoute srcId clock st m)
    refine ⟨?_, by rw [ih2, noDestRoute_max]⟩
    rw [ih1, noDestRoute_messageQueue, noDestRoute_max]

/-- **C6.** For every queue capacity `N ≥ 1` and every sequence of `N + 1`
messages routed with no destinations available into an initially empty
queue, the queue afterwards holds exactly the `N` most-recently-enqueued
entries in arrival order (the oldest entry is evicted), and the queue length
never exceeds `N` after any prefix of the sequence. -/
theorem queue_drop_oldest (N : Nat) (hN : 1 ≤ N) (msgs : List BridgeMessage)
    (hlen : msgs.length = N + 1) (srcId : String) (clock : RouteClock)
    (st : RouterState) (hq : st.messageQueue = []) (hmax : st.maxQueueSize = N) :
    (msgs.foldl (noDestRoute srcId clock) st).messageQueue =
      (msgs.drop 1).map (queuedEntry srcId clock) ∧
    ∀ k : Nat,
      (((msgs.take k).foldl (noDestRoute srcId clock) st).messageQueue).length ≤ N := by
  constructor
  · rw [(foldl_noDestRoute_queue srcId clock msgs st).1, hq, hmax]
    rw [foldl_dropOldestPush_full N hN _ (by simpa using hlen)]
    rw [List.map_drop]
  · intro k
    rw [(foldl_noDestRoute_queue srcId clock _ st).1, hq, hmax]
    exact foldl_dropOldestPush_le N hN _ [] (by simp)

/-- A message used by the queue-capacity scenario. -/
def qMsg (i : String) : BridgeMessage :=
  { version := "1.0.0", type := .event, id := i, timestamp := 5,
    source := .minecraft, payload := .null }

/-- A router with queue capacity 2 and an empty queue. -/
def queueTestRouter : RouterState :=
  { messageQueue := [], maxQueueSize := 2, latency := emptyLatency }

/-- Witness for C6: capacity 2, messages `m1, m2, m3` — the final queue is
`[m2, m3]` and the length bound holds for the full sequence. -/
theorem queue_drop_oldest_witness :
    (([qMsg "m1", qMsg "m2", qMsg "m3"]).foldl
        (noDestRoute "srcQ" ⟨100, 101, 103⟩) queueTestRouter).messageQueue =
      ([qMsg "m2", qMsg "m3"]).map (queuedEntry "srcQ" ⟨100, 101, 103⟩) ∧
    ((((([qMsg "m1", qMsg "m2", qMsg "m3"]).take 3).foldl
        (noDestRoute "srcQ" ⟨100, 101, 103⟩) queueTestRouter).messageQueue).length ≤ 2) :=
  ⟨(queue_drop_oldest 2 (by decide) [qMsg "m1", qMsg "m2", qMsg "m3"] rfl "srcQ"
      ⟨100, 101, 103⟩ queueTestRouter rfl rfl).1,
   (queue_drop_oldest 2 (by decide) [qMsg "m1", qMsg "m2", qMsg "m3"] rfl "srcQ"
      ⟨100, 101, 103⟩ queueTestRouter rfl rfl).2 3⟩

/-- The surviving sockets of a sweep: exactly the live ones, flags cleared. -/
theorem heartbeatSweep_alive (clients : List WsConn) :
    (heartbeatSweep clients).1 =
      (clients.filter (fun c => c.isAlive)).map (fun c => { c with isAlive := false }) := by
  induction clients with
  | nil => rfl
  | cons c rest ih =>
    cases hc : c.isAlive <;> simp [heartbeatSweep, hc, ih, List.filter_cons]

/-- The pinged ids of a sweep: exactly the live sockets' ids. -/
theorem heartbeatSweep_pinged (clients : List WsConn) :
    (heartbeatSweep clients).2.1 =
      (clients.filter (fun c => c.isAlive)).map (fun c => c.clientId) := by
  induction clients with
  | nil => rfl
  | cons c rest ih =>
    cases hc : c.isAlive <;> simp [heartbeatSweep, hc, ih, List.filter_cons]

/-- The terminated sockets of a sweep: exactly the non-live ones. -/
theorem heartbeatSweep_terminated (clients : List WsConn) :
    (heartbeatSweep clients).2.2 = clients.filter (fun c => !c.isAlive) := by
  induction clients with
  | nil => rfl
  | cons c rest ih =>
    cases hc : c.isAlive <;> simp [heartbeatSweep, hc, ih, List.filter_cons]

/-- Registry membership after the terminated sockets' close handlers ran:
an id survives exactly when it was registered and no terminated,
authenticated socket carried it. -/
theorem mem_foldl_closeHandler (l : List WsConn) (registry : List String) (x : String) :
    x ∈ l.foldl closeHandler registry ↔
      x ∈ registry ∧ ∀ c ∈ l, c.authenticated = true → c.clientId ≠ x := by
  induction l generalizing registry with
  | nil => simp
  | cons c rest ih =>
    rw [List.foldl_cons, ih]
    unfold closeHandler
    cases hc : c.authenticated with
    | true =>
      simp only [if_true, List.mem_filter, hc]
      constructor
      · rintro ⟨⟨hreg, hne⟩, hrest⟩
        refine ⟨hreg, ?_⟩
        intro c2 hc2 hauth
        rcases List.mem_cons.mp hc2 with hc3 | hc3
        · subst hc3
          intro hcon
          subst hcon
          simp at hne
        · exact hrest c2 hc3 hauth
      · rintro ⟨hreg, hall⟩
        refine ⟨⟨hreg, ?_⟩, ?_⟩
        · simpa using (hall c (by simp) hc).symm
        · intro c2 hc2 hauth
          exact hall c2 (by simp [hc2]) hauth
    | false =>
      simp only [Bool.false_eq_true, if_false, hc]
      constructor
      · rintro ⟨hreg, hrest⟩
        refine ⟨hreg, ?_⟩
        intro c2 hc2 hauth
        rcases List.mem_cons.mp hc2 with hc3 | hc3
        · subst hc3
          simp [hc] at hauth
        · exact hrest c2 hc3 hauth
      · rintro ⟨hreg, hall⟩
        exact ⟨hreg, fun c2 hc2 hauth => hall c2 (by simp [hc2]) hauth⟩

/-- **C7.** At every heartbeat tick (with the registry's invariant that
socket ids are distinct): every connection whose liveness flag is `false` is
terminated — its id is gone from the surviving socket set, and, when it was
an authenticated (registered) connection, its id is removed from the
registry; every connection whose flag is `true` survives with its flag
cleared to `false` and is sent a ping; and a received pong sets the flag
back to `true`. -/
theorem heartbeat_tick_behavior (clients : List WsConn) (registry : List String)
    (hnodup : (clients.map (fun c => c.clientId)).Nodup) :
    (∀ c ∈ clients, c.isAlive = false →
      c.clientId ∉ ((heartbeatTick clients registry).1.map (fun c => c.clientId)) ∧
      (c.authenticated = true → c.clientId ∉ (heartbeatTick clients registry).2.2)) ∧
    (∀ c ∈ clients, c.isAlive = true →
      { c with isAlive := false } ∈ (heartbeatTick clients registry).1 ∧
      c.clientId ∈ (heartbeatTick clients registry).2.1) ∧
    (∀ c : WsConn, (onPong c).isAlive = true) := by
  refine ⟨?_, ?_, fun c => rfl⟩
  · intro c hc hdead
    constructor
    · rw [show (heartbeatTick clients registry).1 = (heartbeatSweep clients).1 from rfl]
      rw [heartbeatSweep_alive]
      intro hmem
      rw [List.map_map, List.mem_map] at hmem
      obtain ⟨c', hc', hid⟩ := hmem
      have hc'mem : c' ∈ clients := List.mem_of_mem_filter hc'
      have hc'alive : c'.isAlive = true := by
        have := List.of_mem_filter hc'
        simpa using this
      have : c' = c :=
        List.inj_on_of_nodup_map hnodup hc'mem hc (by simpa using hid)
      subst this
      rw [hc'alive] at hdead
      cases hdead
    · intro hauth hmem
      rw [show (heartbeatTick clients registry).2.2 =
        (heartbeatSweep clients).2.2.foldl closeHandler registry from rfl] at hmem
      rw [mem_foldl_closeHandler] at hmem
      obtain ⟨hreg, hall⟩ := hmem
      refine hall c ?_ hauth rfl
      rw [heartbeatSweep_terminated, List.mem_filter]
      exact ⟨hc, by simp [hdead]⟩
  · intro c hc halive
    constructor
    · rw [show (heartbeatTick clients registry).1 = (heartbeatSweep clients).1 from rfl]
      rw [heartbeatSweep_alive]
      exact List.mem_map_of_mem _ (List.mem_filter.mpr ⟨hc, by simp [halive]⟩)
    · rw [show (heartbeatTick clients registry).2.1 = (heartbeatSweep clients).2.1 from rfl]
      rw [heartbeatSweep_pinged]
      exact List.mem_map_of_mem _ (List.mem_filter.mpr ⟨hc, by simp [halive]⟩)

/-- The socket set of the heartbeat scenario: `a` failed to pong, `b` is
live; both authenticated and registered. -/
def hbClients : List WsConn := [⟨"a", false, true⟩, ⟨"b", true, true⟩]

/-- The registry of the heartbeat scenario. -/
def hbRegistry : List String := ["a", "b"]

/-- Witness for C7 at the concrete two-socket scenario. -/
theorem heartbeat_tick_behavior_witness :
    (("a" : String) ∉ ((heartbeatTick hbClients hbRegistry).1.map (fun c => c.clientId)) ∧
      ("a" : String) ∉ (heartbeatTick hbClients hbRegistry).2.2) ∧
    ((⟨"b", false, true⟩ : WsConn) ∈ (heartbeatTick hbClients hbRegistry).1 ∧
      ("b" : String) ∈ (heartbeatTick hbClients hbRegistry).2.1) ∧
    (onPong ⟨"c", false, false⟩).isAlive = true :=
  ⟨⟨((heartbeat_tick_behavior hbClients hbRegistry (by decide)).1
        ⟨"a", false, true⟩ (by decide) rfl).1,
    ((heartbeat_tick_behavior hbClients hbRegistry (by decide)).1
        ⟨"a", false, true⟩ (by decide) rfl).2 rfl⟩,
   (heartbeat_tick_behavior hbClients hbRegistry (by decide)).2.1
        ⟨"b", true, true⟩ (by decide) rfl,
   (heartbeat_tick_behavior hbClients hbRegistry (by decide)).2.2 ⟨"c", false, false⟩⟩

/-- **C9.** On every `close` event with attempt counter `a < maxAttempts`,
the manager schedules the next reconnect after
`min(initialDelay * 2 ^ a, maxDelay)` and increments the counter; once the
counter has reached `maxAttempts` it gives up (no timer is armed); a
successful `open` resets the counter to 0; and with `maxAttempts = 5`,
`initialDelay = 1000` and any `maxDelay ≥ 16000`, six consecutive close
events schedule exactly five retries at 1000, 2000, 4000, 8000, 16000 ms
and then none. -/
theorem reconnection_backoff_schedule (cfg : ReconnectionConfig) (st : ReconnState) :
    (st.attempts < cfg.maxAttempts →
      onClose cfg st = ({ st with wsOpen := false, attempts := st.attempts + 1, reconnectTimeout := some (min (cfg.initialDelay * 2 ^ st.attempts) cfg.maxDelay) }, some (min (cfg.initialDelay * 2 ^ st.attempts) cfg.maxDelay))) ∧
    (cfg.maxAttempts ≤ st.attempts →
      onClose cfg st = ({ st with wsOpen := false }, none)) ∧
    (onOpen st).attempts = 0 ∧
    (∀ st0 : ReconnState, st0.attempts = 0 → ∀ maxDelay : Nat, 16000 ≤ maxDelay →
      closeDelays ⟨5, 1000, maxDelay⟩ st0 6 =
        [some 1000, some 2000, some 4000, some 8000, some 16000, none]) := by
  refine ⟨?_, ?_, rfl, ?_⟩
  · intro h
    unfold onClose scheduleReconnection
    rw [if_neg (by simp only [ge_iff_le]; omega)]
  · intro h
    unfold onClose scheduleReconnection
    rw [if_pos (by simp only [ge_iff_le]; omega)]
  · intro st0 h0 maxDelay hmd
    obtain ⟨att, t0, w0⟩ := st0
    have h0' : att = 0 := h0
    subst h0'
    have m0 : min (1000 * 2 ^ 0) maxDelay = 1000 := by simp; omega
    have m1 : min (1000 * 2 ^ 1) maxDelay = 2000 := by norm_num; omega
    have m2 : min (1000 * 2 ^ 2) maxDelay = 4000 := by norm_num; omega
    have m3 : min (1000 * 2 ^ 3) maxDelay = 8000 := by norm_num; omega
    have m4 : min (1000 * 2 ^ 4) maxDelay = 16000 := by norm_num; omega
    simp [closeDelays, onClose, scheduleReconnection, m0, m1, m2, m3, m4]
    omega

/-- Witness for C9: a concrete give-up transition, a concrete reset, and the
concrete delay trace with `maxDelay = 30000`. -/
theorem reconnection_backoff_schedule_witness :
    onClose ⟨5, 1000, 30000⟩ ⟨0, none, false⟩ =
      (⟨1, some 1000, false⟩, some 1000) ∧
    onClose ⟨5, 1000, 30000⟩ ⟨5, none, false⟩ = (⟨5, none, false⟩, none) ∧
    (onOpen ⟨3, some 4000, false⟩).attempts = 0 ∧
    closeDelays ⟨5, 1000, 30000⟩ ⟨0, none, false⟩ 6 =
      [some 1000, some 2000, some 4000, some 8000, some 16000, none] :=
  ⟨(reconnection_backoff_schedule ⟨5, 1000, 30000⟩ ⟨0, none, false⟩).1 (by decide),
   (reconnection_backoff_schedule ⟨5, 1000, 30000⟩ ⟨5, none, false⟩).2.1 (by decide),
   (reconnection_backoff_schedule ⟨5, 1000, 30000⟩ ⟨3, some 4000, false⟩).2.2.1,
   (reconnection_backoff_schedule ⟨5, 1000, 30000⟩ ⟨0, none, false⟩).2.2.2
      ⟨0, none, false⟩ rfl 30000 (by decide)⟩

/-- **C4 (code bug).** `disconnect()` cancels the pending retry timer, but
`this.ws.close()` fires the socket's `close` handler, which calls
`scheduleReconnection`: starting from an open connection with attempt
counter 0 and a pending timer, disconnecting leaves the manager with a
freshly armed 1000 ms retry timer — a reconnection attempt *is* scheduled
after the supposedly terminal transition. -/
theorem disconnect_schedules_reconnection :
    disconnect ⟨5, 1000, 30000⟩ ⟨0, some 500, true⟩ = ⟨1, some 1000, false⟩ ∧
    (disconnect ⟨5, 1000, 30000⟩ ⟨0, some 500, true⟩).reconnectTimeout ≠ none :=
  ⟨rfl, by decide⟩

end Bridge

